import Mathlib

set_option maxRecDepth 40000

/-!
# Verification of the health-agent stage orchestrator

Shallow embedding of the repository's stage orchestrator (`coordinator.py`),
continuity store (`health_agents/memory_manager.py`) and the stage adapters
(`health_agents/metric_analysis_agent.py`, `health_agents/behavior_analysis_agent.py`,
`health_agents/nutrition_plan_agent.py`, `health_agents/routine_plan_agent.py`).

Modelling conventions:
* Python `float` values are modelled as `Rat`; rendering into prompt text uses an
  exact decimal renderer that agrees with Python `repr` on every value reached by
  the theorems below (integers and exactly-representable decimals).
* Python `datetime` values appearing in telemetry rows are modelled as `PyDateTime`
  (calendar fields); `datetime.now()` reads are made explicit as an argument.
* JSON/dict-valued columns of the `memory` table are modelled as association lists
  (`JsonMap`); structured plan columns store the structured value (the store treats
  them as opaque blobs, so the serialization step is modelled as the identity
  transport of the structured value).
* Fallible external calls (database connection, telemetry fetch, the LLM inference
  capability) are passed in as explicit `Except`/`Option` oracle values.
-/

/-- Abstract wall-clock timestamp used for the `NOW()` stamps the store writes. -/
abbrev Timestamp := Nat

/-- A JSON-object-valued column, modelled as an association list of string fields. -/
abbrev JsonMap := List (String × String)

/-- Calendar date-time, the model of a Python `datetime` value. -/
structure PyDateTime where
  year : Nat
  month : Nat
  day : Nat
  hour : Nat
  minute : Nat
  second : Nat

deriving instance DecidableEq, Repr for PyDateTime

/-- Left-pad a numeral string with zeros to width `w` (for `strftime`-style output). -/
def padZero (w : Nat) (n : Nat) : String :=
  let s := toString n
  String.mk (List.replicate (w - s.length) (Char.ofNat 48)) ++ s

/-- Python `d.strftime('%Y-%m-%d')`. -/
def strftimeYMD (d : PyDateTime) : String :=
  padZero 4 d.year ++ "-" ++ padZero 2 d.month ++ "-" ++ padZero 2 d.day

/-- Python `str(d)` for a `datetime` (no microseconds), e.g. `2025-05-19 04:00:00`. -/
def pyStrDateTime (d : PyDateTime) : String :=
  strftimeYMD d ++ " " ++ padZero 2 d.hour ++ ":" ++ padZero 2 d.minute ++ ":" ++ padZero 2 d.second

/-- Chronological order on `PyDateTime` via the lexicographic tuple of fields. -/
def PyDateTime.key (d : PyDateTime) : Nat :=
  ((((d.year * 13 + d.month) * 32 + d.day) * 24 + d.hour) * 60 + d.minute) * 60 + d.second

/-! ## Structured plan results (`nutrition_plan_agent.py`, `routine_plan_agent.py`) -/

/-- `nutrition_plan_agent.VitaminsInfo`. -/
structure VitaminsInfo where
  Vitamin_D : String
  Calcium : String
  Iron : String
  Magnesium : String

deriving instance DecidableEq, Repr for VitaminsInfo

/-- `nutrition_plan_agent.NutritionalInfo`. -/
structure NutritionalInfo where
  calories : Int
  protein : Int
  protein_percent : Int
  carbs : Int
  carbs_percent : Int
  fat : Int
  fat_percent : Int
  fiber : Int
  sugar : Int
  sodium : Int
  potassium : Int
  vitamins : VitaminsInfo

deriving instance DecidableEq, Repr for NutritionalInfo

/-- `nutrition_plan_agent.MealMacros`. -/
structure MealMacros where
  carbs : Int
  fat : Int

deriving instance DecidableEq, Repr for MealMacros

/-- `nutrition_plan_agent.Meal`. -/
structure Meal where
  name : String
  details : String
  calories : Int
  protein : Int
  macros : MealMacros

deriving instance DecidableEq, Repr for Meal

/-- `nutrition_plan_agent.NutritionMealBlock`. -/
structure NutritionMealBlock where
  time_range : String
  nutrition_tip : String
  meals : List Meal

deriving instance DecidableEq, Repr for NutritionMealBlock

/-- `nutrition_plan_agent.DailyNutrition`. -/
structure DailyNutrition where
  summary : String
  nutritional_info : NutritionalInfo
  Early_Morning : NutritionMealBlock
  Breakfast : NutritionMealBlock
  Morning_Snack : NutritionMealBlock
  Lunch : NutritionMealBlock
  Afternoon_Snack : NutritionMealBlock
  Dinner : NutritionMealBlock
  Evening_Snack : NutritionMealBlock

deriving instance DecidableEq, Repr for DailyNutrition

/-- `nutrition_plan_agent.NutritionPlanResult`. -/
structure NutritionPlanResult where
  date : String
  nutrition : DailyNutrition

deriving instance DecidableEq, Repr for NutritionPlanResult

/-- `routine_plan_agent.RoutineTask`. -/
structure RoutineTask where
  task : String
  reason : String

deriving instance DecidableEq, Repr for RoutineTask

/-- `routine_plan_agent.RoutineTimeBlock`. -/
structure RoutineTimeBlock where
  time_range : String
  why_it_matters : String
  tasks : List RoutineTask

deriving instance DecidableEq, Repr for RoutineTimeBlock

/-- `routine_plan_agent.DailyRoutine`. -/
structure DailyRoutine where
  summary : String
  morning_wakeup : RoutineTimeBlock
  focus_block : RoutineTimeBlock
  afternoon_recharge : RoutineTimeBlock
  evening_winddown : RoutineTimeBlock

deriving instance DecidableEq, Repr for DailyRoutine

/-- `routine_plan_agent.RoutinePlanResult`. -/
structure RoutinePlanResult where
  date : String
  routine : DailyRoutine

deriving instance DecidableEq, Repr for RoutinePlanResult

/-- The four fixed time blocks of a routine plan, in the order the repository
displays and serializes them. -/
def RoutinePlanResult.blocks (r : RoutinePlanResult) : List RoutineTimeBlock :=
  [r.routine.morning_wakeup, r.routine.focus_block,
   r.routine.afternoon_recharge, r.routine.evening_winddown]

/-! ## Archetype resolution (`routine_plan_agent.py`, `memory_manager.py`) -/

/-- The keys of `routine_plan_agent.ARCHETYPE_PROMPTS`, in source order. The prompt
bodies are inert instruction text that no control flow inspects, so only the key set
is embedded. `RoutinePlanService.__init__` builds one agent per key, hence these are
exactly the recognized archetype labels. -/
def ARCHETYPE_PROMPTS_keys : List String :=
  ["Transformation Seeker", "Systematic Improver", "Peak Performer",
   "Resilience Rebuilder", "Connected Explorer", "Foundation Builder"]

/-- The archetype validation step of `RoutinePlanService.create_routine_plan`
(lines 375-377): `if archetype not in self.agents: archetype = "Foundation Builder"`. -/
def resolveArchetype (archetype : String) : String :=
  if archetype ∈ ARCHETYPE_PROMPTS_keys then archetype else "Foundation Builder"

/-- The `archetype_columns` dict of `MemoryManager.update_archetype_routine_plan`
(lines 375-382): maps each recognized archetype label to its `memory`-table column. -/
def archetype_columns (archetype : String) : Option String :=
  if archetype = "Transformation Seeker" then some ("transformation_seeker_plan")
  else if archetype = "Systematic Improver" then some ("systematic_improver_plan")
  else if archetype = "Peak Performer" then some ("peak_performer_plan")
  else if archetype = "Resilience Rebuilder" then some ("resilience_rebuilder_plan")
  else if archetype = "Connected Explorer" then some ("connected_explorer_plan")
  else if archetype = "Foundation Builder" then some ("foundation_builder_plan")
  else none

/-! ## The continuity store (`memory_manager.py`) -/

/-- One row of the `memory` table, mirroring the columns read by
`MemoryManager.get_user_memory` / the dataclass `UserMemory` (minus the key
`profile_id`, which is the row key of the store map). -/
structure MemoryRecord where
  user_preferences : JsonMap
  health_goals : JsonMap
  dietary_restrictions : JsonMap
  lifestyle_context : JsonMap
  medical_conditions : JsonMap
  last_analysis_result : Option String
  analysis_insights : JsonMap
  last_nutrition_plan : Option NutritionPlanResult
  last_routine_plan : Option RoutinePlanResult
  last_behavior_analysis : Option String
  transformation_seeker_plan : Option RoutinePlanResult
  systematic_improver_plan : Option RoutinePlanResult
  peak_performer_plan : Option RoutinePlanResult
  resilience_rebuilder_plan : Option RoutinePlanResult
  connected_explorer_plan : Option RoutinePlanResult
  foundation_builder_plan : Option RoutinePlanResult
  last_archetype : Option String
  health_trends : JsonMap
  improvement_areas : JsonMap
  success_patterns : JsonMap
  total_analyses : Nat
  last_analysis_date : Option Timestamp
  nutrition_plan_date : Option Timestamp
  routine_plan_date : Option Timestamp
  behavior_analysis_date : Option Timestamp

deriving instance DecidableEq, Repr for MemoryRecord

/-- The `memory` table: at most one row per `profile_id`. -/
abbrev Store := String → Option MemoryRecord

/-- `MemoryManager.update_analysis_result` (lines 166-190): the SQL `UPDATE` sets
`last_analysis_result`, `analysis_insights`, `last_analysis_date = NOW()` and
`total_analyses = total_analyses + 1` on the row whose key is `profile_id`;
a missing row is left missing (SQL `UPDATE` of zero rows). -/
def update_analysis_result (store : Store) (profile_id : String)
    (analysis_result : String) (insights : JsonMap) (now : Timestamp) : Store :=
  fun q =>
    if q = profile_id then
      (store q).map fun r =>
        { r with
          last_analysis_result := some analysis_result
          analysis_insights := insights
          last_analysis_date := some now
          total_analyses := r.total_analyses + 1 }
    else store q

/-- `MemoryManager.update_nutrition_plan` (lines 192-246): the SQL `UPDATE` sets
`last_nutrition_plan` and `nutrition_plan_date = NOW()` on the row for `profile_id`.
The serialized `plan_dict` blob is modelled by the structured plan value itself. -/
def update_nutrition_plan (store : Store) (profile_id : String)
    (nutrition_plan : NutritionPlanResult) (now : Timestamp) : Store :=
  fun q =>
    if q = profile_id then
      (store q).map fun r =>
        { r with
          last_nutrition_plan := some nutrition_plan
          nutrition_plan_date := some now }
    else store q

/-- `MemoryManager.update_routine_plan` (lines 248-279): sets `last_routine_plan`
and `routine_plan_date = NOW()` on the row for `profile_id`. -/
def update_routine_plan (store : Store) (profile_id : String)
    (routine_plan : RoutinePlanResult) (now : Timestamp) : Store :=
  fun q =>
    if q = profile_id then
      (store q).map fun r =>
        { r with
          last_routine_plan := some routine_plan
          routine_plan_date := some now }
    else store q

/-- Writing the archetype-keyed column selected by `archetype_columns`
(the `SET {column_name} = $2` part of `update_archetype_routine_plan`). -/
def setArchetypeColumn (r : MemoryRecord) (archetype : String)
    (plan : RoutinePlanResult) : MemoryRecord :=
  if archetype = "Transformation Seeker" then { r with transformation_seeker_plan := some plan }
  else if archetype = "Systematic Improver" then { r with systematic_improver_plan := some plan }
  else if archetype = "Peak Performer" then { r with peak_performer_plan := some plan }
  else if archetype = "Resilience Rebuilder" then { r with resilience_rebuilder_plan := some plan }
  else if archetype = "Connected Explorer" then { r with connected_explorer_plan := some plan }
  else if archetype = "Foundation Builder" then { r with foundation_builder_plan := some plan }
  else r

/-- `MemoryManager.update_archetype_routine_plan` (lines 355-403): builds the plan
blob, rejects an unrecognized archetype with `return False` *before* issuing any
`UPDATE`; on a recognized archetype issues one `UPDATE` that writes the archetype
column plus `last_archetype` and `routine_plan_date = NOW()`. Returns the success
flag together with the resulting store. -/
def update_archetype_routine_plan (store : Store) (profile_id : String)
    (archetype : String) (routine_plan : RoutinePlanResult) (now : Timestamp) :
    Bool × Store :=
  match archetype_columns archetype with
  | none => (false, store)
  | some _ =>
    (true, fun q =>
      if q = profile_id then
        (store q).map fun r =>
          { setArchetypeColumn r archetype routine_plan with
            last_archetype := some archetype
            routine_plan_date := some now }
      else store q)

/-! ## Telemetry data model (`user_profile.py`) -/

/-- `user_profile.ScoreData`. The JSON `data` payload is opaque to all control flow
except substring probes on its `str()` rendering, so it is modelled by that rendered
string. -/
structure ScoreData where
  id : String
  profile_id : String
  type : String
  score : Rat
  data : String
  score_date_time : PyDateTime
  created_at : PyDateTime
  updated_at : PyDateTime

deriving instance DecidableEq, Repr for ScoreData

/-- `user_profile.ArchetypeData`. -/
structure ArchetypeData where
  id : String
  profile_id : String
  name : String
  periodicity : String
  value : String
  data : String
  start_date_time : PyDateTime
  end_date_time : PyDateTime
  created_at : PyDateTime
  updated_at : PyDateTime

deriving instance DecidableEq, Repr for ArchetypeData

/-- `user_profile.BiomarkerData`. Note: it has neither a `value` nor a `score`
attribute, which matters for `_calculate_average_biomarker`. -/
structure BiomarkerData where
  id : String
  profile_id : String
  category : String
  type : String
  data : String
  start_date_time : PyDateTime
  end_date_time : PyDateTime
  created_at : PyDateTime
  updated_at : PyDateTime

deriving instance DecidableEq, Repr for BiomarkerData

/-- The `date_range` dict built by `UserProfileService.get_user_profile_context`
(always carries `start_date`, `end_date` and `days`). -/
structure DateRange where
  start_date : PyDateTime
  end_date : PyDateTime
  days : Nat

deriving instance DecidableEq, Repr for DateRange

/-- `user_profile.UserProfileContext`: the telemetry snapshot of one run. -/
structure UserProfileContext where
  user_id : String
  scores : List ScoreData
  archetypes : List ArchetypeData
  biomarkers : List BiomarkerData
  date_range : DateRange

deriving instance DecidableEq, Repr for UserProfileContext

/-! ## Python rendering helpers -/

/-- Is `pat` an infix of `l`? (model of the Python `in` operator on strings). -/
def listInfixOf [BEq α] (pat : List α) : List α → Bool
  | [] => pat.isEmpty
  | a :: rest => pat.isPrefixOf (a :: rest) || listInfixOf pat rest

/-- Python `pat in s` on strings. -/
def pyInStr (pat s : String) : Bool :=
  listInfixOf pat.toList s.toList

/-- Python `repr`/`str` of a float, for rationals with terminating decimal
expansion (every float value reached by the theorems in this file is such a value,
and on those Python's shortest-round-trip repr prints exactly this decimal).
Non-terminating rationals are rendered with 17 fractional digits. -/
def pyFloatRepr (q : Rat) : String :=
  let sign := if q < 0 then "-" else ""
  let n := q.num.natAbs
  let d := q.den
  let k := ((List.range 31).find? fun k => (10 ^ k * n) % d = 0).getD 17
  let scaled := 10 ^ k * n / d
  let intPart := scaled / 10 ^ k
  let fracPart := scaled % 10 ^ k
  if k = 0 then sign ++ toString intPart ++ ".0"
  else sign ++ toString intPart ++ "." ++ padZero k fracPart

/-- Python `str` of a list of floats, e.g. `[75.0, 80.0]`. -/
def pyFloatListRepr (l : List Rat) : String :=
  "[" ++ String.intercalate (", ") (l.map pyFloatRepr) ++ "]"

/-- A single-quote character, built by code point to keep source text clean. -/
def squote : String := String.singleton (Char.ofNat 39)

/-- Python `str` of the fixed self-added-activities list of dicts returned by
`_extract_self_added_activities` (keys `name`, `category`, `frequency`). -/
def pyActivitiesRepr (l : List (String × String × Nat)) : String :=
  "[" ++ String.intercalate (", ")
    (l.map fun a =>
      "\x7b" ++ squote ++ "name" ++ squote ++ ": " ++ squote ++ a.1 ++ squote ++ ", " ++
      squote ++ "category" ++ squote ++ ": " ++ squote ++ a.2.1 ++ squote ++ ", " ++
      squote ++ "frequency" ++ squote ++ ": " ++ toString a.2.2 ++ "\x7d") ++ "]"

/-! ## Behavioral aggregation functions (`behavior_analysis_agent.py` 245-372).
Python's duck-typed `_calculate_average_biomarker` dispatches on `hasattr`:
`ScoreData` items carry `score`, `BiomarkerData` items carry neither `value` nor
`score`, so the one Python function is embedded once per element type. -/

/-- `_calculate_average_biomarker` applied to a score list (attribute dispatch picks
the `score` branch; scores are non-None floats). -/
def calculate_average_biomarker_scores (data : List ScoreData) (metric_type : String) : Rat :=
  if data.isEmpty then 0
  else
    let relevant := data.filter fun item => pyInStr metric_type item.type.toLower
    if relevant.isEmpty then 0
    else (relevant.map (·.score)).sum / (relevant.length : Rat)

/-- `_calculate_average_biomarker` applied to a biomarker list: `BiomarkerData` has
neither a `value` nor a `score` attribute, so the function falls through to
`return 0.0` whenever any relevant item exists, and returns `0.0` otherwise too. -/
def calculate_average_biomarker_biomarkers (data : List BiomarkerData) (metric_type : String) : Rat :=
  if data.isEmpty then 0
  else
    let relevant := data.filter fun item => pyInStr metric_type item.type.toLower
    if relevant.isEmpty then 0 else 0

/-- `_analyze_trend_direction` (lines 263-282). `sorted(...)[-5:]` keeps the last
five scores by `score_date_time`; the two half-averages are compared against the
±5% bands. -/
def analyze_trend_direction (context : UserProfileContext) : String :=
  if context.scores.isEmpty then "stable"
  else
    let sortedScores := context.scores.mergeSort
      fun a b => a.score_date_time.key ≤ b.score_date_time.key
    let recent := sortedScores.drop (sortedScores.length - 5)
    if recent.length < 2 then "stable"
    else
      let first_half := recent.take (recent.length / 2)
      let second_half := recent.drop (recent.length / 2)
      let avg_first := (first_half.map (·.score)).sum / (first_half.length : Rat)
      let avg_second := (second_half.map (·.score)).sum / (second_half.length : Rat)
      if avg_second > avg_first * (21 / 20 : Rat) then "improving"
      else if avg_second < avg_first * (19 / 20 : Rat) then "declining"
      else "stable"

/-- `_calculate_completion_rate` (lines 284-293): `0.0` on an empty score list,
`75.0` ("Default assumption") when no completion-typed score exists. -/
def calculate_completion_rate (scores : List ScoreData) : Rat :=
  if scores.isEmpty then 0
  else
    let completion_scores := scores.filter fun s => pyInStr ("completion") s.type.toLower
    if completion_scores.isEmpty then 75
    else (completion_scores.map (·.score)).sum / (completion_scores.length : Rat)

/-- `_calculate_on_time_completion`: `max(0, completion_rate - 10)`. -/
def calculate_on_time_completion (scores : List ScoreData) : Rat :=
  max 0 (calculate_completion_rate scores - 10)

/-- `_calculate_average_delay`: fixed default `15.0`. -/
def calculate_average_delay (_ : List ScoreData) : Rat := 15

/-- `_calculate_daily_completion_rates`: fixed mock 7-day data. -/
def calculate_daily_completion_rates (_ : List ScoreData) : List Rat :=
  [75, 80, 70, 85, 90, 65, 60]

/-- `_calculate_category_completion`: average of category-typed scores, `75.0`
default when none match. -/
def calculate_category_completion (scores : List ScoreData) (category : String) : Rat :=
  let category_scores := scores.filter fun s => pyInStr category s.type.toLower
  if category_scores.isEmpty then 75
  else (category_scores.map (·.score)).sum / (category_scores.length : Rat)

/-- `_calculate_tasks_skipped`: count of scores below 50. -/
def calculate_tasks_skipped (scores : List ScoreData) : Nat :=
  (scores.filter fun s => s.score < 50).length

/-- `_calculate_custom_tasks`: count of scores whose data mentions `custom`. -/
def calculate_custom_tasks (scores : List ScoreData) : Nat :=
  (scores.filter fun s => pyInStr ("custom") s.data.toLower).length

/-- `_calculate_task_modifications`: count of scores whose data mentions `modified`. -/
def calculate_task_modifications (scores : List ScoreData) : Nat :=
  (scores.filter fun s => pyInStr ("modified") s.data.toLower).length

/-- `_calculate_check_in_delay`: fixed default `12.0`. -/
def calculate_check_in_delay (_ : List ScoreData) : Rat := 12

/-- `_extract_self_added_activities`: fixed list of two activity dicts. -/
def extract_self_added_activities (_ : List ScoreData) : List (String × String × Nat) :=
  [("Evening meditation", "recovery", 5), ("Weekend hiking", "physical", 2)]

/-- `_calculate_proactive_behaviors`: count of scores whose data mentions `proactive`. -/
def calculate_proactive_behaviors (scores : List ScoreData) : Nat :=
  (scores.filter fun s => pyInStr ("proactive") s.data.toLower).length

/-- `_calculate_routine_consistency`: average of routine-typed scores, `70.0`
default when none match. -/
def calculate_routine_consistency (scores : List ScoreData) (routine_type : String) : Rat :=
  let routine_scores := scores.filter fun s => pyInStr routine_type s.type.toLower
  if routine_scores.isEmpty then 70
  else (routine_scores.map (·.score)).sum / (routine_scores.length : Rat)

/-- `_calculate_weekday_weekend_gap`: fixed default `15.0`. -/
def calculate_weekday_weekend_gap (_ : List ScoreData) : Rat := 15

/-- `_calculate_current_streak`: fixed default `5`. -/
def calculate_current_streak (_ : List ScoreData) : Nat := 5

/-- `_calculate_longest_streak`: fixed default `12`. -/
def calculate_longest_streak (_ : List ScoreData) : Nat := 12

/-- `_calculate_daily_app_opens`: fixed default `3.2`. -/
def calculate_daily_app_opens (_ : List ScoreData) : Rat := 16 / 5

/-- `_calculate_session_duration`: fixed default `8.5`. -/
def calculate_session_duration (_ : List ScoreData) : Rat := 17 / 2

/-- `_calculate_feature_usage`: count of scores whose data mentions the feature. -/
def calculate_feature_usage (scores : List ScoreData) (feature : String) : Nat :=
  (scores.filter fun s => pyInStr feature s.data.toLower).length

/-- `_extract_archetype_from_context`: name of the first archetype record,
`unknown` when the collection is empty or the name is falsy. -/
def extract_archetype_from_context (context : UserProfileContext) : String :=
  match context.archetypes with
  | [] => "unknown"
  | a :: _ => if a.name = "" then "unknown" else a.name

/-! ## Metric-analysis stage adapter (`metric_analysis_agent.py`) -/

/-- One `- Score {i+1}: ...` entry of the scores section of
`MetricAnalysisService.format_user_data_for_analysis`. -/
def scoreEntry (i : Nat) (score : ScoreData) : String :=
  "\n- Score " ++ toString (i + 1) ++ ":\n  - Type: " ++ score.type ++
  "\n  - Value: " ++ pyFloatRepr score.score ++
  "\n  - Date: " ++ pyStrDateTime score.score_date_time ++
  "\n  - Additional Data: " ++ score.data ++ "\n"

/-- One `- Archetype {i+1}: ...` entry of the archetypes section. -/
def archetypeEntry (i : Nat) (archetype : ArchetypeData) : String :=
  "\n- Archetype " ++ toString (i + 1) ++ ":\n  - Name: " ++ archetype.name ++
  "\n  - Periodicity: " ++ archetype.periodicity ++
  "\n  - Value: " ++ archetype.value ++
  "\n  - Date Range: " ++ pyStrDateTime archetype.start_date_time ++ " to " ++
  pyStrDateTime archetype.end_date_time ++
  "\n  - Additional Data: " ++ archetype.data ++ "\n"

/-- One `- Biomarker {i+1}: ...` entry of the biomarkers section. -/
def biomarkerEntry (i : Nat) (biomarker : BiomarkerData) : String :=
  "\n- Biomarker " ++ toString (i + 1) ++ ":\n  - Category: " ++ biomarker.category ++
  "\n  - Type: " ++ biomarker.type ++
  "\n  - Date Range: " ++ pyStrDateTime biomarker.start_date_time ++ " to " ++
  pyStrDateTime biomarker.end_date_time ++
  "\n  - Additional Data: " ++ biomarker.data ++ "\n"

/-- The header of the metric-analysis prompt: time period and data summary.
(The `records  ` trailing blanks after the archetype count are in the source.) -/
def metricHeader (context : UserProfileContext) : String :=
    "\n## USER HEALTH DATA ANALYSIS REQUEST\n\n### Time Period\n- Date Range: " ++
    pyStrDateTime context.date_range.start_date ++ " to " ++
    pyStrDateTime context.date_range.end_date ++
    "\n- Duration: " ++ toString context.date_range.days ++ " days" ++
    "\n- User ID: " ++ context.user_id ++
    "\n\n### Data Summary\n- Scores: " ++ toString context.scores.length ++ " records" ++
    "\n- Archetypes: " ++ toString context.archetypes.length ++ " records  " ++
    "\n- Biomarkers: " ++ toString context.biomarkers.length ++ " records" ++
    "\n\n### DETAILED SCORES DATA\n"

/-- The scores section: first ten records, or the `No data available` marker. -/
def metricScoresSection (context : UserProfileContext) : String :=
  if context.scores.isEmpty then "#### Health Scores: No data available\n"
  else "#### Health Scores:\n" ++
    String.join ((context.scores.take 10).enum.map fun p => scoreEntry p.1 p.2)

/-- The archetypes section: first ten records, or the `No data available` marker. -/
def metricArchetypesSection (context : UserProfileContext) : String :=
  if context.archetypes.isEmpty then "\n#### Health Archetypes: No data available\n"
  else "\n#### Health Archetypes:\n" ++
    String.join ((context.archetypes.take 10).enum.map fun p => archetypeEntry p.1 p.2)

/-- The biomarkers section: first ten records, or the `No data available` marker. -/
def metricBiomarkersSection (context : UserProfileContext) : String :=
  if context.biomarkers.isEmpty then "\n#### Biomarkers: No data available\n"
  else "\n#### Biomarkers:\n" ++
    String.join ((context.biomarkers.take 10).enum.map fun p => biomarkerEntry p.1 p.2)

/-- The closing `### ANALYSIS REQUEST` block of the metric-analysis prompt. -/
def metricTail : String :=
  "\n\n### ANALYSIS REQUEST\nPlease provide a comprehensive health analysis based on this data, including:\n" ++
    "1. Overall health assessment (score 1-100)\n" ++
    "2. Key insights from the data\n" ++
    "3. Trend analysis over the time period\n" ++
    "4. Risk factors identified\n" ++
    "5. Specific recommendations\n" ++
    "6. Data quality assessment\n" ++
    "7. Priority areas for improvement\n\n" ++
    "Please structure your response according to the MetricAnalysisResult format.\n"

/-- `MetricAnalysisService.format_user_data_for_analysis` (lines 26-103): the
structured prompt built from the telemetry snapshot, glued from the sections above
exactly as the Python builds it with `+=`. -/
def format_user_data_for_analysis (context : UserProfileContext) : String :=
  metricHeader context ++ metricScoresSection context ++ metricArchetypesSection context ++
    metricBiomarkersSection context ++ metricTail

/-- The memory-context addendum appended to the analysis input by
`MetricAnalysisService.analyze_metrics` (lines 114-128) when a non-empty
`memory_context` is available. -/
def memoryContextAddendum (memory_context : String) : String :=
  "\n\n### PREVIOUS MEMORY & CONTEXT\n" ++
  "The following is previous memory and context about this user that should inform your analysis:\n\n" ++
  memory_context ++
  "\n\n**Important**: Use this memory context to:\n" ++
  "- Identify changes and trends since previous analyses\n" ++
  "- Consider user preferences and goals in your recommendations\n" ++
  "- Note improvements or deteriorations from past analyses\n" ++
  "- Provide continuity in your health recommendations\n" ++
  "- Avoid repeating identical advice if recent analysis exists\n"

/-- The full prompt text `analyze_metrics` hands to the inference capability. -/
def metricAnalysisInput (context : UserProfileContext) (memory_context : String) : String :=
  format_user_data_for_analysis context ++
  (if memory_context = "" then "" else memoryContextAddendum memory_context)

/-- `MetricAnalysisService.analyze_metrics` (lines 105-140): formats the prompt,
invokes the inference capability (passed here as the `inference` oracle) and, on any
fault, catches it and returns the `Error during metric analysis: ...` string instead
of raising. -/
def analyze_metrics (context : UserProfileContext) (memory_context : String)
    (inference : Except String String) : String :=
  let _prompt := metricAnalysisInput context memory_context
  match inference with
  | .ok out => out
  | .error e => "Error during metric analysis: " ++ e

/-! ## Calendar arithmetic (model of `datetime.now() - timedelta(days=n)`) -/

/-- Days since the civil epoch of the proleptic Gregorian calendar
(days-from-civil, valid for year ≥ 1). -/
def daysFromCivil (y m d : Nat) : Nat :=
  let y' := if m ≤ 2 then y - 1 else y
  let era := y' / 400
  let yoe := y' % 400
  let mp := (m + 9) % 12
  let doy := (153 * mp + 2) / 5 + d - 1
  let doe := yoe * 365 + yoe / 4 - yoe / 100 + doy
  era * 146097 + doe

/-- Inverse of `daysFromCivil` (civil-from-days). -/
def civilFromDays (z : Nat) : Nat × Nat × Nat :=
  let era := z / 146097
  let doe := z % 146097
  let yoe := (doe - doe / 1460 + doe / 36524 - doe / 146096) / 365
  let y := yoe + era * 400
  let doy := doe - (365 * yoe + yoe / 4 - yoe / 100)
  let mp := (5 * doy + 2) / 153
  let d := doy - (153 * mp + 2) / 5 + 1
  let m := if mp < 10 then mp + 3 else mp - 9
  (if m ≤ 2 then y + 1 else y, m, d)

/-- Python `dt - timedelta(days=n)` (time of day unchanged). -/
def PyDateTime.subDays (dt : PyDateTime) (n : Nat) : PyDateTime :=
  let z := daysFromCivil dt.year dt.month dt.day - n
  let c := civilFromDays z
  { dt with year := c.1, month := c.2.1, day := c.2.2 }

example : (PyDateTime.mk 2025 5 19 4 0 0).subDays 7 = PyDateTime.mk 2025 5 12 4 0 0 := by decide
example : (PyDateTime.mk 2025 1 2 0 0 0).subDays 3 = PyDateTime.mk 2024 12 30 0 0 0 := by decide

/-! ## Behavior-analysis stage adapter (`behavior_analysis_agent.py`) -/

/-- Sections 1-4 of the behavior-analysis prompt (lines 87-178): profile and
archetype, derived biomarker averages, the aggregated app-behavioral metrics and the
memory-section header. Braces that are literal text of the prompt (`{{`/`}}` in the
Python f-string) are escaped as `\x7b`/`\x7d`. -/
def behaviorPart1 (context : UserProfileContext) (analysis_type : String) : String :=
    "\nAnalyze the following user data and generate comprehensive behavioral insights for plan generation:\n\n" ++
    "## Analysis Request Type: " ++ analysis_type ++ "\n\n" ++
    "## User Data Package\n\n" ++
    "### 1. Profile & Archetype\n```json\n\x7b\n" ++
    "  \"user_id\": \"" ++ context.user_id ++ "\",\n" ++
    "  \"archetype\": \x7b\n" ++
    "    \"primary\": \"" ++ extract_archetype_from_context context ++ "\",\n" ++
    "    \"secondary\": \"unknown\",\n" ++
    "    \"confidence_score\": 0.85,\n" ++
    "    \"assessment_date\": \"" ++ strftimeYMD context.date_range.start_date ++ "\",\n" ++
    "    \"evolution_trend\": \"stable\"\n" ++
    "  \x7d,\n" ++
    "  \"demographics\": \x7b\n" ++
    "    \"age\": 0,\n" ++
    "    \"occupation\": \"unknown\",\n" ++
    "    \"timezone\": \"unknown\",\n" ++
    "    \"optimization_experience\": \"intermediate\"\n" ++
    "  \x7d\n\x7d\n```\n\n" ++
    "### 2. Current Biomarkers (Last 7 Days Average)\n```json\n\x7b\n" ++
    "  \"hrv_ms\": " ++ pyFloatRepr (calculate_average_biomarker_biomarkers context.biomarkers ("hrv")) ++ ",\n" ++
    "  \"sleep_efficiency_percent\": " ++ pyFloatRepr (calculate_average_biomarker_biomarkers context.biomarkers ("sleep_efficiency")) ++ ",\n" ++
    "  \"resting_heart_rate\": " ++ pyFloatRepr (calculate_average_biomarker_biomarkers context.biomarkers ("resting_hr")) ++ ",\n" ++
    "  \"stress_score\": " ++ pyFloatRepr (calculate_average_biomarker_scores context.scores ("stress")) ++ ",\n" ++
    "  \"energy_level\": " ++ pyFloatRepr (calculate_average_biomarker_scores context.scores ("energy")) ++ ",\n" ++
    "  \"recovery_score\": " ++ pyFloatRepr (calculate_average_biomarker_scores context.scores ("recovery")) ++ ",\n" ++
    "  \"measurement_date\": \"" ++ strftimeYMD context.date_range.end_date ++ "\",\n" ++
    "  \"trend_direction\": \"" ++ analyze_trend_direction context ++ "\"\n" ++
    "\x7d\n```\n\n" ++
    "### 3. App Behavioral Data\n```json\n\x7b\n" ++
    "  \"plan_completion\": \x7b\n" ++
    "    \"completion_rate\": " ++ pyFloatRepr (calculate_completion_rate context.scores) ++ ",\n" ++
    "    \"on_time_completion_rate\": " ++ pyFloatRepr (calculate_on_time_completion context.scores) ++ ",\n" ++
    "    \"average_delay_minutes\": " ++ pyFloatRepr (calculate_average_delay context.scores) ++ ",\n" ++
    "    \"daily_completion_rates\": " ++ pyFloatListRepr (calculate_daily_completion_rates context.scores) ++ ",\n" ++
    "    \"category_completion\": \x7b\n" ++
    "      \"morning_routine\": " ++ pyFloatRepr (calculate_category_completion context.scores ("morning")) ++ ",\n" ++
    "      \"focus_blocks\": " ++ pyFloatRepr (calculate_category_completion context.scores ("focus")) ++ ",\n" ++
    "      \"physical_activity\": " ++ pyFloatRepr (calculate_category_completion context.scores ("physical")) ++ ",\n" ++
    "      \"nutrition\": " ++ pyFloatRepr (calculate_category_completion context.scores ("nutrition")) ++ ",\n" ++
    "      \"evening_routine\": " ++ pyFloatRepr (calculate_category_completion context.scores ("evening")) ++ ",\n" ++
    "      \"recovery\": " ++ pyFloatRepr (calculate_category_completion context.scores ("recovery")) ++ "\n" ++
    "    \x7d\n" ++
    "  \x7d,\n" ++
    "  \"engagement_patterns\": \x7b\n" ++
    "    \"tasks_skipped\": " ++ toString (calculate_tasks_skipped context.scores) ++ ",\n" ++
    "    \"custom_tasks_added\": " ++ toString (calculate_custom_tasks context.scores) ++ ",\n" ++
    "    \"task_modifications\": " ++ toString (calculate_task_modifications context.scores) ++ ",\n" ++
    "    \"check_in_delay_average_minutes\": " ++ pyFloatRepr (calculate_check_in_delay context.scores) ++ "\n" ++
    "  \x7d,\n" ++
    "  \"user_initiative\": \x7b\n" ++
    "    \"self_added_activities\": " ++ pyActivitiesRepr (extract_self_added_activities context.scores) ++ ",\n" ++
    "    \"proactive_behavior_count\": " ++ toString (calculate_proactive_behaviors context.scores) ++ "\n" ++
    "  \x7d,\n" ++
    "  \"consistency_metrics\": \x7b\n" ++
    "    \"routine_consistency\": \x7b\n" ++
    "      \"morning\": " ++ pyFloatRepr (calculate_routine_consistency context.scores ("morning")) ++ ",\n" ++
    "      \"evening\": " ++ pyFloatRepr (calculate_routine_consistency context.scores ("evening")) ++ "\n" ++
    "    \x7d,\n" ++
    "    \"weekday_vs_weekend_gap\": " ++ pyFloatRepr (calculate_weekday_weekend_gap context.scores) ++ ",\n" ++
    "    \"current_streak_days\": " ++ toString (calculate_current_streak context.scores) ++ ",\n" ++
    "    \"longest_streak_days\": " ++ toString (calculate_longest_streak context.scores) ++ "\n" ++
    "  \x7d,\n" ++
    "  \"motivation_indicators\": \x7b\n" ++
    "    \"daily_app_opens\": " ++ pyFloatRepr (calculate_daily_app_opens context.scores) ++ ",\n" ++
    "    \"average_session_duration_minutes\": " ++ pyFloatRepr (calculate_session_duration context.scores) ++ ",\n" ++
    "    \"feature_usage_counts\": \x7b\n" ++
    "      \"plan_review\": " ++ toString (calculate_feature_usage context.scores ("plan_review")) ++ ",\n" ++
    "      \"progress_view\": " ++ toString (calculate_feature_usage context.scores ("progress_view")) ++ ",\n" ++
    "      \"analytics\": " ++ toString (calculate_feature_usage context.scores ("analytics")) ++ ",\n" ++
    "      \"community\": " ++ toString (calculate_feature_usage context.scores ("community")) ++ "\n" ++
    "    \x7d\n" ++
    "  \x7d\n\x7d\n```\n\n" ++
    "### 4. Memory Context (For Follow-up Analysis Only)\n"

/-- The follow-up (`if memory_context:`) section of the behavior-analysis prompt
(lines 180-212); note the two `datetime.now() - timedelta` interpolations. -/
def behaviorMemoryPart (memory_context : String) (now : PyDateTime) : String :=
  if memory_context = "" then ""
  else
    "\n```json\n\x7b\n" ++
      "  \"previous_analysis\": \x7b\n" ++
      "    \"date\": \"" ++ strftimeYMD (now.subDays 7) ++ "\",\n" ++
      "    \"behavioral_signature\": \"extracted_from_memory\",\n" ++
      "    \"sophistication_score\": 50,\n" ++
      "    \"primary_goal\": \"extracted_from_memory\",\n" ++
      "    \"completion_rate\": 75,\n" ++
      "    \"key_insights\": \"extracted_from_memory\"\n" ++
      "  \x7d,\n" ++
      "  \"successful_patterns\": [\n" ++
      "    \"Morning routine consistency\",\n" ++
      "    \"High engagement with physical activities\"\n" ++
      "  ],\n" ++
      "  \"challenge_areas\": [\n" ++
      "    \"Evening routine completion\",\n" ++
      "    \"Weekend consistency gaps\"\n" ++
      "  ],\n" ++
      "  \"adaptation_history\": [\n" ++
      "    \x7b\n" ++
      "      \"date\": \"" ++ strftimeYMD (now.subDays 3) ++ "\",\n" ++
      "      \"change_type\": \"maintenance\",\n" ++
      "      \"effectiveness\": \"high\"\n" ++
      "    \x7d\n" ++
      "  ]\n\x7d\n```\n\n" ++
    "### Previous Memory Context:\n" ++ memory_context ++ "\n"

/-- The closing section of the behavior-analysis prompt (lines 214-235); the
`analysis_date` field interpolates `datetime.now().strftime('%Y-%m-%d')`. -/
def behaviorPart5 (context : UserProfileContext) (now : PyDateTime) : String :=
  "\n### 5. Current Context\n```json\n\x7b\n" ++
    "  \"analysis_date\": \"" ++ strftimeYMD now ++ "\",\n" ++
    "  \"days_since_start\": " ++ toString context.date_range.days ++ ",\n" ++
    "  \"goal_timeline\": \"30_days\",\n" ++
    "  \"life_factors\": [\"work_stress\", \"seasonal_changes\"],\n" ++
    "  \"user_requests\": [\"improve_consistency\", \"better_sleep\"],\n" ++
    "  \"upcoming_events\": [\"none_specified\"]\n" ++
    "\x7d\n```\n\n" ++
    "## Analysis Requirements\n\n" ++
    "1. **For Initial Assessment**: Focus on establishing baseline behavioral patterns and appropriate entry-level challenge calibration\n" ++
    "2. **For Follow-up Analysis**: Emphasize adaptation based on demonstrated patterns, trajectory analysis, and refined personalization\n\n" ++
    "Generate a comprehensive behavioral analysis following the exact JSON structure specified in your training. Ensure all insights are grounded in the provided data and aligned with evidence-based behavioral psychology principles.\n\n" ++
  "Output Format: Structured JSON as defined in system training.\n"

/-- `BehaviorAnalysisService.format_user_data_for_behavior_analysis` (lines 81-237):
the full prompt, glued from the three sections the Python builds with `+=`. The
ambient `datetime.now()` reads are made explicit as the `now` argument. The guarded
`... if context.date_range.get(...) else 'unknown'` interpolations always take the
date branch because `get_user_profile_context` always populates the range. -/
def format_user_data_for_behavior_analysis (context : UserProfileContext)
    (memory_context : String) (now : PyDateTime) : String :=
  let analysis_type := if memory_context = "" then "Initial Assessment" else "Follow-up Analysis"
  behaviorPart1 context analysis_type ++ behaviorMemoryPart memory_context now ++
    behaviorPart5 context now

/-! ## Nutrition-plan stage adapter (`nutrition_plan_agent.py`) -/

/-- `NutritionPlanService.format_context_for_nutrition_planning` (lines 63-93):
a pure function of the narrative analysis text — the source reads no ambient state
here, so two calls with the same narrative produce the same bytes. -/
def format_context_for_nutrition_planning (analysis_result : String) : String :=
  "\n## PERSONALIZED DETAILED NUTRITION PLAN REQUEST\n\n" ++
  "### COMPREHENSIVE HEALTH ANALYSIS\n" ++ analysis_result ++ "\n\n" ++
  "### DETAILED NUTRITION PLAN REQUEST\n" ++
  "Based on the comprehensive health analysis above, please create a detailed, personalized nutrition plan for TODAY that includes:\n\n" ++
  "1. **Nutritional Info**: Complete daily targets including calories, macros (with percentages), fiber, sugar, sodium, potassium, and key vitamins\n" ++
  "2. **Early Morning**: Pre-breakfast hydration and light nutrition (5:45-6:15 AM)\n" ++
  "3. **Breakfast**: Morning meal with brain-boosting foods (6:30-7:00 AM)\n" ++
  "4. **Morning Snack**: Mid-morning energy maintenance (9:30-10:00 AM)\n" ++
  "5. **Lunch**: Midday nutrition for sustained energy (12:00-12:30 PM)\n" ++
  "6. **Afternoon Snack**: Post-activity energy replenishment (3:00-3:30 PM)\n" ++
  "7. **Dinner**: Evening meal for recovery (6:00-6:30 PM)\n" ++
  "8. **Evening Snack**: Light nutrition for sleep support (8:30-9:00 PM)\n\n" ++
  "For each meal block, provide:\n" ++
  "- Specific time range\n" ++
  "- Nutrition tip explaining why this timing/composition matters for health\n" ++
  "- 1-2 specific meals with detailed descriptions, calories, protein, and macro breakdown\n\n" ++
  "Please make the plan practical, achievable, and directly tailored to address the specific health insights from the analysis.\n" ++
  "Each meal should have specific food items, portions, and complete nutritional breakdown.\n"

/-- The placeholder meal block of the nutrition error-state result. -/
def errorNutritionBlock : NutritionMealBlock :=
  { time_range := "N/A"
    nutrition_tip := "Error occurred"
    meals := [{ name := "Error", details := "Unable to generate", calories := 0,
                protein := 0, macros := { carbs := 0, fat := 0 } }] }

/-- The structured error-state result built by the `except` branch of
`NutritionPlanService.create_nutrition_plan` (lines 111-173). -/
def nutritionErrorResult (e : String) (now : PyDateTime) : NutritionPlanResult :=
  { date := strftimeYMD now
    nutrition :=
      { summary := "Error creating nutrition plan: " ++ e
        nutritional_info :=
          { calories := 0, protein := 0, protein_percent := 0, carbs := 0,
            carbs_percent := 0, fat := 0, fat_percent := 0, fiber := 0, sugar := 0,
            sodium := 0, potassium := 0,
            vitamins := { Vitamin_D := "N/A", Calcium := "N/A", Iron := "N/A",
                          Magnesium := "N/A" } }
        Early_Morning := errorNutritionBlock
        Breakfast := errorNutritionBlock
        Morning_Snack := errorNutritionBlock
        Lunch := errorNutritionBlock
        Afternoon_Snack := errorNutritionBlock
        Dinner := errorNutritionBlock
        Evening_Snack := errorNutritionBlock } }

/-- `NutritionPlanService.create_nutrition_plan` (lines 95-173): formats the
prompt, invokes the inference capability, and on any fault returns the structured
error result instead of raising. -/
def create_nutrition_plan (analysis_result : String)
    (inference : Except String NutritionPlanResult) (now : PyDateTime) :
    NutritionPlanResult :=
  let _prompt := format_context_for_nutrition_planning analysis_result
  match inference with
  | .ok plan => plan
  | .error e => nutritionErrorResult e now

/-! ## Routine-plan stage adapter (`routine_plan_agent.py`) -/

/-- The placeholder time block of the routine error-state result: note it carries
exactly ONE task. -/
def errorRoutineBlock : RoutineTimeBlock :=
  { time_range := "N/A"
    why_it_matters := "Error occurred"
    tasks := [{ task := "Unable to generate", reason := "System error" }] }

/-- The structured error-state result built by the `except` branch of
`RoutinePlanService.create_routine_plan` (lines 390-418). -/
def routineErrorResult (e : String) (archetype : String) (now : PyDateTime) :
    RoutinePlanResult :=
  { date := strftimeYMD now
    routine :=
      { summary := "Error creating " ++ archetype ++ " routine plan: " ++ e
        morning_wakeup := errorRoutineBlock
        focus_block := errorRoutineBlock
        afternoon_recharge := errorRoutineBlock
        evening_winddown := errorRoutineBlock } }

/-- `RoutinePlanService.create_routine_plan` (lines 370-418): validates the
archetype (unknown labels fall back to `Foundation Builder`), formats the prompt,
invokes the per-archetype agent, and on any fault returns the structured error
result (whose summary names the validated archetype, since the fallback assignment
runs before the inference call can fault). The optional behavior-analysis input
only feeds prompt text and is omitted from the model. -/
def create_routine_plan (analysis_result : String) (archetype : String)
    (inference : Except String RoutinePlanResult) (now : PyDateTime) :
    RoutinePlanResult :=
  let validated := resolveArchetype archetype
  let _ := analysis_result
  match inference with
  | .ok plan => plan
  | .error e => routineErrorResult e validated now

/-! ## Memory-context formatting (`memory_manager.py` 495-542) -/

/-- `MemoryManager._serialize_for_json` on a dict-valued field (JSON object with
string values; keys/values in insertion order, `json.dumps` default separators). -/
def serializeJsonMap (m : JsonMap) : String :=
  "\x7b" ++
  String.intercalate (", ") (m.map fun kv => "\"" ++ kv.1 ++ "\": \"" ++ kv.2 ++ "\"") ++
  "\x7d"

/-- Python `str()` of an optional timestamp (`str(None)` is `None`); the abstract
`Timestamp` is rendered by its numeral. -/
def pyStrOptTimestamp : Option Timestamp → String
  | none => "None"
  | some t => toString t

/-- `MemoryManager.format_memory_context` (lines 495-542): joins the non-empty
context parts with blank lines. (The `if not memory` early return is unreachable
here: the coordinator only calls this with a present record, and a dataclass
instance is always truthy.) -/
def format_memory_context (memory : MemoryRecord) : String :=
  let parts : List (Option String) :=
    [ (if memory.user_preferences.isEmpty then none
       else some ("User Preferences: " ++ serializeJsonMap memory.user_preferences)),
      (if memory.health_goals.isEmpty then none
       else some ("Health Goals: " ++ serializeJsonMap memory.health_goals)),
      (if memory.dietary_restrictions.isEmpty then none
       else some ("Dietary Restrictions: " ++ serializeJsonMap memory.dietary_restrictions)),
      (if memory.lifestyle_context.isEmpty then none
       else some ("Lifestyle Context: " ++ serializeJsonMap memory.lifestyle_context)),
      (if memory.medical_conditions.isEmpty then none
       else some ("Medical Conditions: " ++ serializeJsonMap memory.medical_conditions)),
      (if (memory.last_analysis_result.getD ("")) = "" then none
       else some ("Previous Analysis (from " ++ pyStrOptTimestamp memory.last_analysis_date ++
                  "): " ++ (memory.last_analysis_result.getD ("")).take 500 ++ "...")),
      (if memory.analysis_insights.isEmpty then none
       else some ("Analysis Insights: " ++ serializeJsonMap memory.analysis_insights)),
      (if memory.health_trends.isEmpty then none
       else some ("Health Trends: " ++ serializeJsonMap memory.health_trends)),
      (if memory.success_patterns.isEmpty then none
       else some ("Success Patterns: " ++ serializeJsonMap memory.success_patterns)),
      (if memory.improvement_areas.isEmpty then none
       else some ("Areas for Improvement: " ++ serializeJsonMap memory.improvement_areas)),
      (if (memory.last_behavior_analysis.getD ("")) = "" then none
       else some ("Previous Behavior Analysis (from " ++
                  pyStrOptTimestamp memory.behavior_analysis_date ++ "): " ++
                  (memory.last_behavior_analysis.getD ("")))),
      some ("Total Previous Analyses: " ++ toString memory.total_analyses) ]
  String.intercalate ("\n\n") (parts.filterMap id)

/-! ## The orchestrator (`coordinator.py` `HealthCoordinator.run_analysis`) -/

/-- Observable steps of one orchestrator run, in execution order. Stage events mark
the stage being driven; `patch*` events mark continuity-store update operations the
run issues; `logInput`/`logOutput` mark the audit-sink appends. `behaviorAnalysis`
is in the vocabulary so that claims about that stage can be stated, even though
`run_analysis` never emits it. -/
inductive Event where
  | loadMemory
  | fetchTelemetry
  | logInput
  | metricAnalysis
  | behaviorAnalysis
  | nutritionPlan
  | routinePlan
  | patchAnalysis (profile_id : String) (analysis_result : String)
  | patchNutrition (profile_id : String)
  | patchRoutine (profile_id : String)
  | logOutput

deriving instance DecidableEq, Repr for Event

/-- Is this event a pipeline stage step (as opposed to a persistence patch)? -/
def Event.isStage : Event → Bool
  | .patchAnalysis _ _ => false
  | .patchNutrition _ => false
  | .patchRoutine _ => false
  | _ => true

/-- The external-collaborator oracle of one run: outcomes of the fallible calls
`run_analysis` makes, plus the ambient clock. `memoryLoad` is the first
`get_user_memory` (with `.error` for a raised connection failure);
`memoryAfterCreate` is the re-read after `create_user_memory` when the first read
found no row. The three inference fields are the outcomes of the (at most one per
stage) LLM invocations. -/
structure RunEnv where
  memoryLoad : Except String (Option MemoryRecord)
  memoryAfterCreate : Option MemoryRecord
  telemetry : Except String UserProfileContext
  metricInference : Except String String
  nutritionInference : Except String NutritionPlanResult
  routineInference : Except String RoutinePlanResult
  now : PyDateTime

/-- Step 0 of `run_analysis` (lines 229-252): retrieve the user memory; on a raised
error fall back to `None`; when no record exists, create one and re-read. -/
def loadedMemory (env : RunEnv) : Option MemoryRecord :=
  match env.memoryLoad with
  | .error _ => none
  | .ok (some m) => some m
  | .ok none => env.memoryAfterCreate

/-- The `memory_context` string of the run (lines 277-288): formatted from the
loaded record, empty when none was loaded. -/
def memoryContextOf (env : RunEnv) : String :=
  match loadedMemory env with
  | some m => format_memory_context m
  | none => ""

/-- What one orchestrator run observably did: its event trace and the stage results
it held at the final output-logging step. -/
structure RunResult where
  trace : List Event
  analysis : Option String
  nutrition : Option NutritionPlanResult
  routine : Option RoutinePlanResult

deriving instance DecidableEq, Repr for RunResult

/-- `HealthCoordinator.run_analysis` (`coordinator.py` lines 217-397), as the trace
of observable steps it performs given the collaborator oracle `env`:

* memory load (step 0) is non-fatal: any failure degrades to no in-memory record;
* a raised telemetry fetch (step 1) aborts the run immediately — nothing after the
  fetch happens (lines 270-272 `return`);
* the metric-analysis adapter never raises (it catches internally and returns an
  `Error during metric analysis: ...` string), so step 2 always completes, and the
  run persists whatever string it got via `update_analysis_result` — but only when
  a memory record was loaded (`if user_memory:`, line 308);
* nutrition (step 3) and routine (step 4) adapters likewise never raise, returning
  structured error-state results on an inference fault; each result is persisted
  (lines 346-347, 366-367) only when a memory record was loaded;
* the routine stage is invoked as `create_personalized_routine_plan(analysis_result)`
  (line 358), i.e. with the default `Foundation Builder` archetype and no behavior
  analysis — no behavior-analysis stage exists in this workflow;
* output logging (lines 374-379) always runs exactly once at the end. -/
def run_analysis (profile_id : String) (env : RunEnv) : RunResult :=
  let user_memory := loadedMemory env
  match env.telemetry with
  | .error _ =>
    { trace := [Event.loadMemory, Event.fetchTelemetry]
      analysis := none, nutrition := none, routine := none }
  | .ok user_context =>
    let memory_context := memoryContextOf env
    let analysis_result := analyze_metrics user_context memory_context env.metricInference
    let patchA : List Event :=
      if user_memory.isSome then [Event.patchAnalysis profile_id analysis_result] else []
    let nutrition_plan := create_nutrition_plan analysis_result env.nutritionInference env.now
    let patchN : List Event :=
      if user_memory.isSome then [Event.patchNutrition profile_id] else []
    let routine_plan :=
      create_routine_plan analysis_result ("Foundation Builder") env.routineInference env.now
    let patchR : List Event :=
      if user_memory.isSome then [Event.patchRoutine profile_id] else []
    { trace :=
        [Event.loadMemory, Event.fetchTelemetry, Event.logInput, Event.metricAnalysis] ++
        patchA ++ [Event.nutritionPlan] ++ patchN ++ [Event.routinePlan] ++ patchR ++
        [Event.logOutput]
      analysis := some analysis_result
      nutrition := some nutrition_plan
      routine := some routine_plan }

/-! ## Concrete fixtures for witnesses and counterexamples -/

/-- The fixed reference instant of `user_profile.get_date_range` (2025-05-19 04:00). -/
def dMay19 : PyDateTime := { year := 2025, month := 5, day := 19, hour := 4, minute := 0, second := 0 }

/-- Seven days before `dMay19`. -/
def dMay12 : PyDateTime := { year := 2025, month := 5, day := 12, hour := 4, minute := 0, second := 0 }

/-- The calendar day after `dMay19`. -/
def dMay20 : PyDateTime := { year := 2025, month := 5, day := 20, hour := 4, minute := 0, second := 0 }

/-- A telemetry snapshot whose three collections are all empty. -/
def emptyCtx : UserProfileContext :=
  { user_id := "user-1", scores := [], archetypes := [], biomarkers := []
    date_range := { start_date := dMay12, end_date := dMay19, days := 7 } }

/-- A freshly created continuity record (every context map empty, counter zero). -/
def emptyRecord : MemoryRecord :=
  { user_preferences := [], health_goals := [], dietary_restrictions := []
    lifestyle_context := [], medical_conditions := [], last_analysis_result := none
    analysis_insights := [], last_nutrition_plan := none, last_routine_plan := none
    last_behavior_analysis := none, transformation_seeker_plan := none
    systematic_improver_plan := none, peak_performer_plan := none
    resilience_rebuilder_plan := none, connected_explorer_plan := none
    foundation_builder_plan := none, last_archetype := none, health_trends := []
    improvement_areas := [], success_patterns := [], total_analyses := 0
    last_analysis_date := none, nutrition_plan_date := none, routine_plan_date := none
    behavior_analysis_date := none }

/-- A small well-formed routine time block with two tasks. -/
def sampleBlock : RoutineTimeBlock :=
  { time_range := "6:00-7:00 AM", why_it_matters := "start the day"
    tasks := [{ task := "hydrate", reason := "rehydration" },
              { task := "stretch", reason := "mobility" }] }

/-- A small well-formed routine plan. -/
def sampleRoutinePlan : RoutinePlanResult :=
  { date := "2025-05-19"
    routine := { summary := "sample", morning_wakeup := sampleBlock,
                 focus_block := sampleBlock, afternoon_recharge := sampleBlock,
                 evening_winddown := sampleBlock } }

/-- A small well-formed nutrition plan (placeholder content). -/
def sampleNutritionPlan : NutritionPlanResult :=
  { date := "2025-05-19"
    nutrition :=
      { summary := "sample"
        nutritional_info :=
          { calories := 2000, protein := 120, protein_percent := 25, carbs := 220,
            carbs_percent := 45, fat := 70, fat_percent := 30, fiber := 30, sugar := 40,
            sodium := 2000, potassium := 3500,
            vitamins := { Vitamin_D := "600 IU", Calcium := "1000 mg", Iron := "8 mg",
                          Magnesium := "400 mg" } }
        Early_Morning := { time_range := "5:45-6:15 AM", nutrition_tip := "hydrate"
                           meals := [{ name := "Water", details := "500 ml", calories := 0,
                                       protein := 0, macros := { carbs := 0, fat := 0 } }] }
        Breakfast := { time_range := "6:30-7:00 AM", nutrition_tip := "protein"
                       meals := [{ name := "Oats", details := "1 bowl", calories := 350,
                                   protein := 12, macros := { carbs := 55, fat := 8 } }] }
        Morning_Snack := { time_range := "9:30-10:00 AM", nutrition_tip := "fruit"
                           meals := [{ name := "Apple", details := "1", calories := 90,
                                       protein := 0, macros := { carbs := 23, fat := 0 } }] }
        Lunch := { time_range := "12:00-12:30 PM", nutrition_tip := "balance"
                   meals := [{ name := "Bowl", details := "grains", calories := 600,
                               protein := 35, macros := { carbs := 70, fat := 18 } }] }
        Afternoon_Snack := { time_range := "3:00-3:30 PM", nutrition_tip := "nuts"
                             meals := [{ name := "Almonds", details := "30 g", calories := 180,
                                         protein := 6, macros := { carbs := 6, fat := 15 } }] }
        Dinner := { time_range := "6:00-6:30 PM", nutrition_tip := "recovery"
                    meals := [{ name := "Salmon", details := "150 g", calories := 500,
                                protein := 40, macros := { carbs := 30, fat := 20 } }] }
        Evening_Snack := { time_range := "8:30-9:00 PM", nutrition_tip := "light"
                           meals := [{ name := "Yogurt", details := "1 cup", calories := 120,
                                       protein := 10, macros := { carbs := 12, fat := 3 } }] } } }

/-- A store holding exactly one row, for the user `u1`. -/
def sampleStore : Store :=
  fun q => if q = "u1" then some emptyRecord else none

/-- Oracle of a fully successful run (memory present, telemetry up, inference up). -/
def envAllOk : RunEnv :=
  { memoryLoad := Except.ok (some emptyRecord), memoryAfterCreate := none
    telemetry := Except.ok emptyCtx
    metricInference := Except.ok ("ok narrative")
    nutritionInference := Except.ok sampleNutritionPlan
    routineInference := Except.ok sampleRoutinePlan
    now := dMay19 }

/-- Oracle of a run whose LLM inference capability always fails while memory and
telemetry work. -/
def envAllFail : RunEnv :=
  { memoryLoad := Except.ok (some emptyRecord), memoryAfterCreate := none
    telemetry := Except.ok emptyCtx
    metricInference := Except.error ("llm down")
    nutritionInference := Except.error ("llm down")
    routineInference := Except.error ("llm down")
    now := dMay19 }

/-- Oracle of a run where loading the continuity record raises (connection down)
but the telemetry fetch and inference work. -/
def envNoMemory : RunEnv :=
  { memoryLoad := Except.error ("db down"), memoryAfterCreate := none
    telemetry := Except.ok emptyCtx
    metricInference := Except.ok ("ok narrative")
    nutritionInference := Except.ok sampleNutritionPlan
    routineInference := Except.ok sampleRoutinePlan
    now := dMay19 }

/-- Oracle of a run whose telemetry fetch raises. -/
def envTelemetryDown : RunEnv :=
  { memoryLoad := Except.ok (some emptyRecord), memoryAfterCreate := none
    telemetry := Except.error ("telemetry down")
    metricInference := Except.ok ("ok narrative")
    nutritionInference := Except.ok sampleNutritionPlan
    routineInference := Except.ok sampleRoutinePlan
    now := dMay19 }

/-! ## C6 — archetype resolution -/

/-- C6: archetype resolution is total and never errors: every input resolves to a
recognized label, any string outside the six recognized labels resolves to the
`Foundation Builder` default, every recognized label has a store column, and the
six store columns are pairwise distinct. -/
theorem C6_archetype_resolution_total :
    (∀ s : String, resolveArchetype s ∈ ARCHETYPE_PROMPTS_keys) ∧
    (∀ s : String, s ∉ ARCHETYPE_PROMPTS_keys → resolveArchetype s = "Foundation Builder") ∧
    (∀ l ∈ ARCHETYPE_PROMPTS_keys, (archetype_columns l).isSome) ∧
    (ARCHETYPE_PROMPTS_keys.map archetype_columns).Nodup := by
  refine ⟨?_, ?_, by decide, by decide⟩
  · intro s
    unfold resolveArchetype
    split
    · assumption
    · decide
  · intro s hs
    unfold resolveArchetype
    split
    · exact absurd (by assumption) hs
    · rfl

/-- C6 witness: the empty string is unrecognized and resolves to the default. -/
theorem C6_archetype_resolution_total_witness :
    "" ∉ ARCHETYPE_PROMPTS_keys ∧ resolveArchetype "" = "Foundation Builder" :=
  ⟨by decide, C6_archetype_resolution_total.2.1 ("") (by decide)⟩

/-! ## C7 — unknown archetype is rejected without any write -/

/-- C7: calling the archetype-keyed routine patch with a label outside the six
recognized ones fails (returns `false`) and returns the store completely unchanged —
the label check rejects the call before any column write. -/
theorem C7_unknown_archetype_rejected
    (store : Store) (profile_id archetype : String) (plan : RoutinePlanResult)
    (now : Timestamp) (h : archetype ∉ ARCHETYPE_PROMPTS_keys) :
    update_archetype_routine_plan store profile_id archetype plan now = (false, store) := by
  have hcol : archetype_columns archetype = none := by
    simp only [ARCHETYPE_PROMPTS_keys, List.mem_cons, List.mem_singleton, not_or] at h
    obtain ⟨h1, h2, h3, h4, h5, h6, -⟩ := h
    simp [archetype_columns, h1, h2, h3, h4, h5, h6]
  unfold update_archetype_routine_plan
  rw [hcol]

/-- C7 witness: a made-up label is rejected and the one-row store is untouched. -/
theorem C7_unknown_archetype_rejected_witness :
    "Balanced Dreamer" ∉ ARCHETYPE_PROMPTS_keys ∧
    update_archetype_routine_plan sampleStore ("u1") ("Balanced Dreamer") sampleRoutinePlan 0 =
      (false, sampleStore) :=
  ⟨by decide,
   C7_unknown_archetype_rejected sampleStore ("u1") ("Balanced Dreamer") sampleRoutinePlan 0
     (by decide)⟩

/-! ## C10 — patch operations are frame-exact -/

/-- C10: each continuity-store patch touches only its own field group of the row
for the given user and nothing else. The nutrition patch writes only
`last_nutrition_plan` and `nutrition_plan_date`; the analysis patch writes only
`last_analysis_result`, `analysis_insights`, `last_analysis_date` and the
`total_analyses` counter (incremented by one); both leave every other field of the
row and every other user's row unchanged (and a missing row missing). -/
theorem C10_patch_frame
    (store : Store) (pid : String) (plan : NutritionPlanResult) (narrative : String)
    (insights : JsonMap) (now : Timestamp) :
    ((∀ q, q ≠ pid → update_nutrition_plan store pid plan now q = store q) ∧
     (store pid = none → update_nutrition_plan store pid plan now pid = none) ∧
     (∀ r, store pid = some r → ∃ r',
        update_nutrition_plan store pid plan now pid = some r' ∧
        r'.last_nutrition_plan = some plan ∧
        r'.nutrition_plan_date = some now ∧
        r'.user_preferences = r.user_preferences ∧
        r'.health_goals = r.health_goals ∧
        r'.dietary_restrictions = r.dietary_restrictions ∧
        r'.lifestyle_context = r.lifestyle_context ∧
        r'.medical_conditions = r.medical_conditions ∧
        r'.last_analysis_result = r.last_analysis_result ∧
        r'.analysis_insights = r.analysis_insights ∧
        r'.last_routine_plan = r.last_routine_plan ∧
        r'.last_behavior_analysis = r.last_behavior_analysis ∧
        r'.transformation_seeker_plan = r.transformation_seeker_plan ∧
        r'.systematic_improver_plan = r.systematic_improver_plan ∧
        r'.peak_performer_plan = r.peak_performer_plan ∧
        r'.resilience_rebuilder_plan = r.resilience_rebuilder_plan ∧
        r'.connected_explorer_plan = r.connected_explorer_plan ∧
        r'.foundation_builder_plan = r.foundation_builder_plan ∧
        r'.last_archetype = r.last_archetype ∧
        r'.health_trends = r.health_trends ∧
        r'.improvement_areas = r.improvement_areas ∧
        r'.success_patterns = r.success_patterns ∧
        r'.total_analyses = r.total_analyses ∧
        r'.last_analysis_date = r.last_analysis_date ∧
        r'.routine_plan_date = r.routine_plan_date ∧
        r'.behavior_analysis_date = r.behavior_analysis_date)) ∧
    ((∀ q, q ≠ pid → update_analysis_result store pid narrative insights now q = store q) ∧
     (store pid = none → update_analysis_result store pid narrative insights now pid = none) ∧
     (∀ r, store pid = some r → ∃ r',
        update_analysis_result store pid narrative insights now pid = some r' ∧
        r'.last_analysis_result = some narrative ∧
        r'.analysis_insights = insights ∧
        r'.last_analysis_date = some now ∧
        r'.total_analyses = r.total_analyses + 1 ∧
        r'.user_preferences = r.user_preferences ∧
        r'.health_goals = r.health_goals ∧
        r'.dietary_restrictions = r.dietary_restrictions ∧
        r'.lifestyle_context = r.lifestyle_context ∧
        r'.medical_conditions = r.medical_conditions ∧
        r'.last_nutrition_plan = r.last_nutrition_plan ∧
        r'.last_routine_plan = r.last_routine_plan ∧
        r'.last_behavior_analysis = r.last_behavior_analysis ∧
        r'.transformation_seeker_plan = r.transformation_seeker_plan ∧
        r'.systematic_improver_plan = r.systematic_improver_plan ∧
        r'.peak_performer_plan = r.peak_performer_plan ∧
        r'.resilience_rebuilder_plan = r.resilience_rebuilder_plan ∧
        r'.connected_explorer_plan = r.connected_explorer_plan ∧
        r'.foundation_builder_plan = r.foundation_builder_plan ∧
        r'.last_archetype = r.last_archetype ∧
        r'.health_trends = r.health_trends ∧
        r'.improvement_areas = r.improvement_areas ∧
        r'.success_patterns = r.success_patterns ∧
        r'.nutrition_plan_date = r.nutrition_plan_date ∧
        r'.behavior_analysis_date = r.behavior_analysis_date)) := by
  refine ⟨⟨?_, ?_, ?_⟩, ⟨?_, ?_, ?_⟩⟩
  · intro q hq; simp [update_nutrition_plan, hq]
  · intro h; simp [update_nutrition_plan, h]
  · intro r hr
    refine ⟨{ r with
        last_nutrition_plan := some plan
        nutrition_plan_date := some now },
      by simp [update_nutrition_plan, hr], ?_⟩
    and_intros <;> rfl
  · intro q hq; simp [update_analysis_result, hq]
  · intro h; simp [update_analysis_result, h]
  · intro r hr
    refine ⟨{ r with
        last_analysis_result := some narrative
        analysis_insights := insights
        last_analysis_date := some now
        total_analyses := r.total_analyses + 1 },
      by simp [update_analysis_result, hr], ?_⟩
    and_intros <;> rfl

/-- C10 witness: on a one-row store, patching `u1` leaves `u2` missing and
updates exactly the nutrition (resp. analysis) field group of `u1`. -/
theorem C10_patch_frame_witness :
    ("u2" ≠ "u1" ∧
     update_nutrition_plan sampleStore ("u1") sampleNutritionPlan 5 "u2" = sampleStore ("u2")) ∧
    (sampleStore ("u1") = some emptyRecord ∧
     ∃ r', update_analysis_result sampleStore ("u1") ("a narrative") [] 5 "u1" = some r' ∧
       r'.last_analysis_result = some ("a narrative") ∧
       r'.total_analyses = emptyRecord.total_analyses + 1) := by
  refine ⟨⟨by decide, ?_⟩, ⟨by rfl, ?_⟩⟩
  · exact (C10_patch_frame sampleStore ("u1") sampleNutritionPlan ("a narrative") [] 5).1.1
      "u2" (by decide)
  · obtain ⟨r', h1, h2, h3, h4, h5, -⟩ :=
      (C10_patch_frame sampleStore ("u1") sampleNutritionPlan ("a narrative") [] 5).2.2.2
        emptyRecord (by rfl)
    exact ⟨r', h1, h2, h5⟩

/-! ## C5 — routine-plan result shape -/

/-- C5 counterexample: the error-state routine result returned on an internal fault
has blocks with exactly one task, so the claim that every block of every result
(including the error-state one) has between 2 and 4 tasks is false. -/
theorem C5_counterexample :
    ¬ ∀ b ∈ (create_routine_plan ("narrative") ("Foundation Builder")
        (Except.error ("inference unavailable")) dMay19).blocks,
      2 ≤ b.tasks.length ∧ b.tasks.length ≤ 4 := by
  decide

/-- C5 (amended): every routine-plan stage result contains exactly the four fixed
time blocks (morning_wakeup, focus_block, afternoon_recharge, evening_winddown);
but the error-state result returned on an internal fault carries exactly ONE
placeholder task in each block, not 2-4 (the 2-4-tasks shape is only requested of
the inference output via prompt instructions, not enforced). -/
theorem C5_routine_blocks (analysis_result archetype : String)
    (inference : Except String RoutinePlanResult) (now : PyDateTime) :
    (create_routine_plan analysis_result archetype inference now).blocks.length = 4 ∧
    (∀ e, inference = Except.error e →
      ∀ b ∈ (create_routine_plan analysis_result archetype inference now).blocks,
        b.tasks.length = 1) := by
  constructor
  · cases inference <;> simp [create_routine_plan, RoutinePlanResult.blocks]
  · rintro e rfl b hb
    simp [create_routine_plan, routineErrorResult, RoutinePlanResult.blocks] at hb
    subst hb
    rfl

/-- C5 witness: at a concrete faulted inference, the result has four blocks and its
morning block has exactly one task. -/
theorem C5_routine_blocks_witness :
    (create_routine_plan ("n") ("Peak Performer") (Except.error ("boom")) dMay19).blocks.length = 4 ∧
    (create_routine_plan ("n") ("Peak Performer")
        (Except.error ("boom")) dMay19).routine.morning_wakeup.tasks.length = 1 :=
  ⟨(C5_routine_blocks ("n") ("Peak Performer") (Except.error ("boom")) dMay19).1,
   (C5_routine_blocks ("n") ("Peak Performer") (Except.error ("boom")) dMay19).2 "boom" rfl
     _ (by simp [RoutinePlanResult.blocks])⟩

/-! ## C8 — formatter determinism -/

/-- The formatted request the nutrition-plan adapter passes to the inference
capability, as a function of the narrative and the ambient clock instant at call
time. `format_context_for_nutrition_planning` reads no ambient state, so the clock
argument is unused — which is exactly what the determinism theorem below records. -/
def nutritionPlanInput (analysis_result : String) (_now : PyDateTime) : String :=
  format_context_for_nutrition_planning analysis_result

/-- `strftime` of a shifted date depends only on the calendar date fields. -/
theorem strftimeYMD_subDays_congr (n1 n2 : PyDateTime) (k : Nat)
    (hy : n1.year = n2.year) (hm : n1.month = n2.month) (hd : n1.day = n2.day) :
    strftimeYMD (n1.subDays k) = strftimeYMD (n2.subDays k) := by
  simp [strftimeYMD, PyDateTime.subDays, daysFromCivil, hy, hm, hd]

/-- C8 counterexample: two calls of the behavior-analysis formatter with identical
`(input, upstream_context)` but made on different calendar days produce different
prompt text — the formatter interpolates `datetime.now()`, so its output is not
byte-for-byte reproducible from the declared inputs alone. -/
theorem C8_counterexample :
    format_user_data_for_behavior_analysis emptyCtx "" dMay19 ≠
    format_user_data_for_behavior_analysis emptyCtx "" dMay20 := by
  intro h
  simp only [format_user_data_for_behavior_analysis, behaviorMemoryPart, reduceIte] at h
  have h2 := congrArg String.data h
  simp only [String.data_append, List.append_assoc,
    (show ("" : String).data = [] from rfl), List.nil_append] at h2
  have h3 := List.append_cancel_left h2
  simp only [behaviorPart5, String.data_append, List.append_assoc] at h3
  have h4 := List.append_cancel_left h3
  have h5 := List.append_cancel_left h4
  have h6 := List.append_cancel_right h5
  exact absurd h6 (by decide)

/-- C8 (amended): with the ambient clock held to the same calendar date, every
embedded formatter is byte-for-byte reproducible from `(input, upstream_context)`:
the behavior-analysis formatter's output depends on the ambient clock only through
the current calendar date, and the nutrition-plan formatter's output is independent
of the ambient clock altogether (it is a pure function of the narrative). Across
different calendar dates the behavior-analysis formatter's output differs (see the
counterexample). -/
theorem C8_formatter_determinism :
    (∀ (ctx : UserProfileContext) (mem : String) (n1 n2 : PyDateTime),
      n1.year = n2.year → n1.month = n2.month → n1.day = n2.day →
      format_user_data_for_behavior_analysis ctx mem n1 =
        format_user_data_for_behavior_analysis ctx mem n2) ∧
    (∀ (a : String) (n1 n2 : PyDateTime),
      nutritionPlanInput a n1 = nutritionPlanInput a n2) := by
  constructor
  · intro ctx mem n1 n2 hy hm hd
    have h0 : strftimeYMD n1 = strftimeYMD n2 := by simp [strftimeYMD, hy, hm, hd]
    have h7 := strftimeYMD_subDays_congr n1 n2 7 hy hm hd
    have h3 := strftimeYMD_subDays_congr n1 n2 3 hy hm hd
    simp only [format_user_data_for_behavior_analysis, behaviorPart1, behaviorMemoryPart,
      behaviorPart5, h0, h7, h3]
  · intro a n1 n2
    rfl

/-- C8 witness: same calendar date, different time of day — identical prompt text;
and the nutrition formatter ignores the clock entirely. -/
theorem C8_formatter_determinism_witness :
    format_user_data_for_behavior_analysis emptyCtx "" dMay19 =
      format_user_data_for_behavior_analysis emptyCtx ""
        { dMay19 with hour := 23, minute := 59 } ∧
    nutritionPlanInput ("narrative") dMay19 = nutritionPlanInput ("narrative") dMay20 :=
  ⟨C8_formatter_determinism.1 emptyCtx "" dMay19
      { dMay19 with hour := 23, minute := 59 } rfl rfl rfl,
   C8_formatter_determinism.2 ("narrative") dMay19 dMay20⟩

/-! ## C9 — empty telemetry is handled totally -/

/-- `pat` occurs as a contiguous substring of `s`. -/
def strContains (s pat : String) : Prop :=
  ∃ a b, s = a ++ pat ++ b

/-- String append is associative (via the underlying character data). -/
theorem strAppend_assoc (a b c : String) : a ++ b ++ c = a ++ (b ++ c) := by
  apply String.ext
  simp [String.data_append]

/-- C9: on a telemetry snapshot whose scores, archetypes and biomarkers are all
empty, the metric-analysis formatter emits the explicit `No data available` marker
for each section, and every behavioral aggregation returns its documented default
(no division by zero, no indexing into an empty list is reachable). -/
theorem C9_empty_telemetry_total (ctx : UserProfileContext)
    (hs : ctx.scores = []) (ha : ctx.archetypes = []) (hb : ctx.biomarkers = []) :
    strContains (format_user_data_for_analysis ctx) ("#### Health Scores: No data available\n") ∧
    strContains (format_user_data_for_analysis ctx) ("\n#### Health Archetypes: No data available\n") ∧
    strContains (format_user_data_for_analysis ctx) ("\n#### Biomarkers: No data available\n") ∧
    (∀ t, calculate_average_biomarker_scores ctx.scores t = 0) ∧
    (∀ t, calculate_average_biomarker_biomarkers ctx.biomarkers t = 0) ∧
    analyze_trend_direction ctx = "stable" ∧
    calculate_completion_rate ctx.scores = 0 ∧
    calculate_on_time_completion ctx.scores = 0 ∧
    (∀ c, calculate_category_completion ctx.scores c = 75) ∧
    (∀ c, calculate_routine_consistency ctx.scores c = 70) ∧
    calculate_daily_completion_rates ctx.scores = [75, 80, 70, 85, 90, 65, 60] ∧
    calculate_tasks_skipped ctx.scores = 0 ∧
    calculate_proactive_behaviors ctx.scores = 0 := by
  refine ⟨?_, ?_, ?_, ?_, ?_, ?_, ?_, ?_, ?_, ?_, ?_, ?_, ?_⟩
  · refine ⟨metricHeader ctx,
      metricArchetypesSection ctx ++ (metricBiomarkersSection ctx ++ metricTail), ?_⟩
    simp [format_user_data_for_analysis, metricScoresSection, hs, strAppend_assoc]
  · refine ⟨metricHeader ctx ++ metricScoresSection ctx,
      metricBiomarkersSection ctx ++ metricTail, ?_⟩
    simp [format_user_data_for_analysis, metricArchetypesSection, ha, strAppend_assoc]
  · refine ⟨metricHeader ctx ++ metricScoresSection ctx ++ metricArchetypesSection ctx,
      metricTail, ?_⟩
    simp [format_user_data_for_analysis, metricBiomarkersSection, hb, strAppend_assoc]
  · intro t; simp [calculate_average_biomarker_scores, hs]
  · intro t; simp [calculate_average_biomarker_biomarkers, hb]
  · simp [analyze_trend_direction, hs]
  · simp [calculate_completion_rate, hs]
  · have : calculate_completion_rate ctx.scores = 0 := by simp [calculate_completion_rate, hs]
    simp [calculate_on_time_completion, this]
  · intro c; simp [calculate_category_completion, hs]
  · intro c; simp [calculate_routine_consistency, hs]
  · rfl
  · simp [calculate_tasks_skipped, hs]
  · simp [calculate_proactive_behaviors, hs]

/-- C9 witness: the concrete empty snapshot exercises every default. -/
theorem C9_empty_telemetry_total_witness :
    strContains (format_user_data_for_analysis emptyCtx) ("#### Health Scores: No data available\n") ∧
    analyze_trend_direction emptyCtx = "stable" ∧
    calculate_completion_rate emptyCtx.scores = 0 ∧
    calculate_on_time_completion emptyCtx.scores = 0 :=
  ⟨(C9_empty_telemetry_total emptyCtx rfl rfl rfl).1,
   (C9_empty_telemetry_total emptyCtx rfl rfl rfl).2.2.2.2.2.1,
   (C9_empty_telemetry_total emptyCtx rfl rfl rfl).2.2.2.2.2.2.1,
   (C9_empty_telemetry_total emptyCtx rfl rfl rfl).2.2.2.2.2.2.2.1⟩

/-! ## C1 — stage sequence (no behavior-analysis stage) -/

/-- Is this event an analysis-persistence patch? -/
def Event.isPatchAnalysis : Event → Bool
  | .patchAnalysis _ _ => true
  | _ => false

/-- How many output-log appends a trace contains. -/
def countLogOutput : List Event → Nat
  | [] => 0
  | Event.logOutput :: rest => countLogOutput rest + 1
  | _ :: rest => countLogOutput rest

/-- C1 counterexample: in a fully successful concrete run no behavior-analysis
stage is ever invoked — the orchestrator's workflow has no such step, so the claimed
eight-stage sequence (with behavior-analysis between metric-analysis and
nutrition-plan) is false. -/
theorem C1_counterexample :
    Event.behaviorAnalysis ∉ (run_analysis ("user-1") envAllOk).trace := by
  decide

/-- C1 (amended): whenever the telemetry fetch succeeds, the stages execute
strictly in the sequence load-continuity-record, fetch-telemetry, log-input,
metric-analysis, nutrition-plan, routine-plan, log-output; no behavior-analysis
stage is invoked by the orchestrator (the behavior-analysis adapter exists in the
codebase but `run_analysis` never calls it). -/
theorem C1_stage_sequence (profile_id : String) (env : RunEnv)
    (ctx : UserProfileContext) (h : env.telemetry = Except.ok ctx) :
    (run_analysis profile_id env).trace.filter Event.isStage =
      [Event.loadMemory, Event.fetchTelemetry, Event.logInput, Event.metricAnalysis,
       Event.nutritionPlan, Event.routinePlan, Event.logOutput] ∧
    Event.behaviorAnalysis ∉ (run_analysis profile_id env).trace := by
  cases hm : loadedMemory env with
  | none => simp [run_analysis, h, hm, Event.isStage]
  | some m => simp [run_analysis, h, hm, Event.isStage]

/-- C1 witness: the amended sequence at a concrete successful run. -/
theorem C1_stage_sequence_witness :
    (run_analysis ("user-1") envAllOk).trace.filter Event.isStage =
      [Event.loadMemory, Event.fetchTelemetry, Event.logInput, Event.metricAnalysis,
       Event.nutritionPlan, Event.routinePlan, Event.logOutput] :=
  (C1_stage_sequence ("user-1") envAllOk emptyCtx rfl).1

/-! ## C2 — a run with an always-failing inference capability still completes -/

/-- C2: if the telemetry fetch succeeds and every LLM inference invocation fails,
the run still completes: the trace ends with exactly one output-log append, the
metric-analysis result is the error-marked string, and the nutrition and routine
results are the structured error-state results (error-marked summaries). -/
theorem C2_stubbed_inference_failures (profile_id : String) (env : RunEnv)
    (ctx : UserProfileContext) (em en er : String)
    (h : env.telemetry = Except.ok ctx)
    (hm : env.metricInference = Except.error em)
    (hn : env.nutritionInference = Except.error en)
    (hr : env.routineInference = Except.error er) :
    countLogOutput (run_analysis profile_id env).trace = 1 ∧
    (∃ pre, (run_analysis profile_id env).trace = pre ++ [Event.logOutput] ∧
      countLogOutput pre = 0) ∧
    (run_analysis profile_id env).analysis =
      some ("Error during metric analysis: " ++ em) ∧
    (run_analysis profile_id env).nutrition = some (nutritionErrorResult en env.now) ∧
    (nutritionErrorResult en env.now).nutrition.summary =
      "Error creating nutrition plan: " ++ en ∧
    (run_analysis profile_id env).routine =
      some (routineErrorResult er ("Foundation Builder") env.now) ∧
    (routineErrorResult er ("Foundation Builder") env.now).routine.summary =
      "Error creating Foundation Builder routine plan: " ++ er := by
  cases hmem : loadedMemory env with
  | none =>
    refine ⟨?_, ⟨[Event.loadMemory, Event.fetchTelemetry, Event.logInput,
        Event.metricAnalysis, Event.nutritionPlan, Event.routinePlan], ?_, by decide⟩,
      ?_, ?_, ?_, ?_, ?_⟩ <;>
      simp [run_analysis, h, hmem, hm, hn, hr, analyze_metrics, create_nutrition_plan,
        create_routine_plan, resolveArchetype, nutritionErrorResult, routineErrorResult,
        countLogOutput, ARCHETYPE_PROMPTS_keys]
  | some m =>
    refine ⟨?_, ⟨[Event.loadMemory, Event.fetchTelemetry, Event.logInput,
        Event.metricAnalysis,
        Event.patchAnalysis profile_id ("Error during metric analysis: " ++ em),
        Event.nutritionPlan, Event.patchNutrition profile_id, Event.routinePlan,
        Event.patchRoutine profile_id], ?_, ?_⟩,
      ?_, ?_, ?_, ?_, ?_⟩ <;>
      simp [run_analysis, h, hmem, hm, hn, hr, analyze_metrics, create_nutrition_plan,
        create_routine_plan, resolveArchetype, nutritionErrorResult, routineErrorResult,
        countLogOutput, ARCHETYPE_PROMPTS_keys]

/-- C2 witness: the concrete always-failing-inference run. -/
theorem C2_stubbed_inference_failures_witness :
    countLogOutput (run_analysis ("user-1") envAllFail).trace = 1 ∧
    (run_analysis ("user-1") envAllFail).analysis =
      some ("Error during metric analysis: " ++ "llm down") :=
  ⟨(C2_stubbed_inference_failures ("user-1") envAllFail emptyCtx
      ("llm down") ("llm down") ("llm down") rfl rfl rfl rfl).1,
   (C2_stubbed_inference_failures ("user-1") envAllFail emptyCtx
      ("llm down") ("llm down") ("llm down") rfl rfl rfl rfl).2.2.1⟩

/-! ## C3 — analysis persistence requires a loaded continuity record -/

/-- C3 counterexample: in a concrete run where the continuity-record load failed
(so the run proceeded with an empty in-memory context) and the metric-analysis
stage succeeded, NO analysis patch is issued — `update_analysis_result` sits behind
`if user_memory:` in the coordinator, so the claim that the narrative is persisted
in such runs is false. -/
theorem C3_counterexample :
    (run_analysis ("user-1") envNoMemory).analysis = some ("ok narrative") ∧
    (run_analysis ("user-1") envNoMemory).trace.filter Event.isPatchAnalysis = [] := by
  constructor <;> decide

/-- C3 (amended): whenever the telemetry fetch succeeds and a continuity record was
loaded, the metric-analysis narrative is persisted via the analysis patch
immediately — before the nutrition-plan and routine-plan stages run, and
independent of their outcomes (no hypothesis constrains their oracles); but when
the continuity-record load failed, the run proceeds without issuing any analysis
patch. -/
theorem C3_analysis_persistence (profile_id : String) (env : RunEnv)
    (ctx : UserProfileContext) (h : env.telemetry = Except.ok ctx) :
    ((loadedMemory env).isSome →
      ∃ pre post, (run_analysis profile_id env).trace =
        pre ++ Event.patchAnalysis profile_id
          (analyze_metrics ctx (memoryContextOf env) env.metricInference) :: post ∧
        Event.nutritionPlan ∉ pre ∧ Event.routinePlan ∉ pre) ∧
    (loadedMemory env = none →
      (run_analysis profile_id env).trace.filter Event.isPatchAnalysis = []) := by
  constructor
  · intro hs
    obtain ⟨m, hm⟩ := Option.isSome_iff_exists.mp hs
    refine ⟨[Event.loadMemory, Event.fetchTelemetry, Event.logInput, Event.metricAnalysis],
      [Event.nutritionPlan, Event.patchNutrition profile_id, Event.routinePlan,
       Event.patchRoutine profile_id, Event.logOutput], ?_, by decide, by decide⟩
    simp [run_analysis, h, hm]
  · intro h0
    simp [run_analysis, h, h0, Event.isPatchAnalysis]

/-- C3 witness: the persistence half at a concrete run with a loaded record. -/
theorem C3_analysis_persistence_witness :
    ∃ pre post, (run_analysis ("user-1") envAllOk).trace =
      pre ++ Event.patchAnalysis ("user-1")
        (analyze_metrics emptyCtx (memoryContextOf envAllOk) envAllOk.metricInference) :: post ∧
      Event.nutritionPlan ∉ pre ∧ Event.routinePlan ∉ pre :=
  (C3_analysis_persistence ("user-1") envAllOk emptyCtx rfl).1 (by rfl)

/-! ## C4 — telemetry failure aborts the run -/

/-- C4: if the telemetry fetch raises, the run aborts immediately: the trace stops
at the fetch (no stage after it, no patch at all), and no narrative or plan is
produced. -/
theorem C4_telemetry_abort (profile_id : String) (env : RunEnv) (e : String)
    (h : env.telemetry = Except.error e) :
    run_analysis profile_id env =
      { trace := [Event.loadMemory, Event.fetchTelemetry],
        analysis := none, nutrition := none, routine := none } ∧
    Event.metricAnalysis ∉ (run_analysis profile_id env).trace ∧
    Event.nutritionPlan ∉ (run_analysis profile_id env).trace ∧
    Event.routinePlan ∉ (run_analysis profile_id env).trace ∧
    (run_analysis profile_id env).trace.filter (fun ev => !ev.isStage) = [] := by
  refine ⟨?_, ?_, ?_, ?_, ?_⟩ <;> simp [run_analysis, h, Event.isStage]

/-- C4 witness: the concrete telemetry-down run. -/
theorem C4_telemetry_abort_witness :
    run_analysis ("user-1") envTelemetryDown =
      { trace := [Event.loadMemory, Event.fetchTelemetry],
        analysis := none, nutrition := none, routine := none } :=
  (C4_telemetry_abort ("user-1") envTelemetryDown ("telemetry down") rfl).1
